import Mathlib

/-!
# Verification of the health-chatbot webhook handler

A shallow embedding of `src/routes/webhook.ts` (the variant with greeting
logic and the axios-based sender, lines 274-646): the intent classifiers
`isSimpleGreeting` and `isMedicalQuestion`, the payload shapes, and the
`POST /webhook` handler's control flow, together with theorems about the
response status, the outbound-send attempts, and the classifier predicates.

Strings are modelled as lists of Unicode code points (`List Nat`), so the
JavaScript string operations used by the code (`toLowerCase` restricted to
ASCII letters, `trim`, `includes`, `startsWith`, `endsWith`, truthiness of
strings) become executable functions on `List Nat`.
-/

namespace HealthChatbot

/-- Code-point string: the model of a JavaScript string. -/
abbrev Str : Type := List Nat

/-- Convert a Lean string literal to its code-point list. -/
def strOf (s : String) : Str :=
  s.data.map Char.toNat

/-- ASCII lowering of one code point, the model of what
`String.prototype.toLowerCase` does on the ASCII letters appearing in the
keyword, phrase and greeting tables of the source. -/
def jsCharLower (c : Nat) : Nat :=
  if 65 ≤ c ∧ c ≤ 90 then c + 32 else c

/-- Model of `text.toLowerCase()`. -/
def jsLower (s : Str) : Str :=
  s.map jsCharLower

/-- Whitespace code points removed by `String.prototype.trim` (the ASCII
ones: tab, LF, VT, FF, CR, space). -/
def isWsChar (c : Nat) : Bool :=
  decide (c = 9 ∨ c = 10 ∨ c = 11 ∨ c = 12 ∨ c = 13 ∨ c = 32)

/-- Model of `text.trim()`: drop whitespace from the front, then from
the back. -/
def jsTrim (s : Str) : Str :=
  List.rdropWhile isWsChar (List.dropWhile isWsChar s)

/-- Model of `hay.startsWith(needle)` (first argument is the needle). -/
def jsStartsWith : Str → Str → Bool
  | [], _ => true
  | _ :: _, [] => false
  | n :: ns, h :: hs => n == h && jsStartsWith ns hs

/-- Model of `hay.includes(needle)` (first argument is the needle):
substring search. -/
def jsIncludes (needle : Str) : Str → Bool
  | [] => jsStartsWith needle []
  | c :: t => jsStartsWith needle (c :: t) || jsIncludes needle t

/-- Model of `hay.endsWith(needle)` (first argument is the needle). -/
def jsEndsWith (needle hay : Str) : Bool :=
  jsStartsWith needle.reverse hay.reverse

/-- JavaScript truthiness of an optional string: `undefined` and the empty
string are falsy.  Returns the string exactly when it is truthy. -/
def truthyStr : Option Str → Option Str
  | none => none
  | some s => if s.isEmpty then none else some s

/-- Model of `a || b` on optional strings: `b` when `a` is falsy. -/
def jsOr (a b : Option Str) : Option Str :=
  match truthyStr a with
  | some s => some s
  | none => b

/-- The greeting table of `isSimpleGreeting` (webhook.ts lines 277-292,
verbatim, including the duplicated `"hi"`). -/
def greetings : List Str :=
  [strOf "hi", strOf "hello", strOf "hey", strOf "hola", strOf "gm",
   strOf "good morning", strOf "ge", strOf "good evening", strOf "ga",
   strOf "good afternoon", strOf "hii", strOf "hellloo", strOf "afternoon",
   strOf "hi"]

/-- `isSimpleGreeting` (webhook.ts lines 274-295): the lowercased, trimmed
text must equal one of the greetings exactly. -/
def isSimpleGreeting (text : Str) : Bool :=
  let lowerText := jsTrim (jsLower text)
  greetings.any (fun greeting => lowerText == greeting)

/-- The keyword table of `isMedicalQuestion` (webhook.ts lines 303-332). -/
def medicalKeywords : List Str :=
  [strOf "symptom", strOf "diagnosis", strOf "doctor", strOf "health",
   strOf "medication", strOf "drug", strOf "disease", strOf "illness",
   strOf "pain", strOf "fever", strOf "cough", strOf "treatment",
   strOf "cure", strOf "malaria", strOf "blood pressure", strOf "sick",
   strOf "injury", strOf "prescription", strOf "pharmacy", strOf "clinic",
   strOf "tb", strOf "tuberculosis", strOf "condition", strOf "prevent",
   strOf "cholera", strOf "typhoid", strOf "sign", strOf "symptoms"]

/-- The question-phrase table of `isMedicalQuestion` (webhook.ts lines
334-340). -/
def questionPhrases : List Str :=
  [strOf "what is", strOf "how do i treat", strOf "am i sick",
   strOf "what are the signs of", strOf "how to cure"]

/-- `isMedicalQuestion` (webhook.ts lines 300-355): keyword substring
check, then question-phrase head check, then the short-text check, else
false. -/
def isMedicalQuestion (text : Str) : Bool :=
  let lowerText := jsLower text
  if medicalKeywords.any (fun keyword => jsIncludes keyword lowerText) then
    true
  else if questionPhrases.any (fun phrase => jsStartsWith phrase lowerText) then
    true
  else if lowerText.length < 5 then
    false
  else
    false

/-- The medical classifier with the short-text branch removed: only the
keyword-substring and question-phrase tests remain (the simplified
predicate of the refinement claim). -/
def isMedicalQuestionNoLengthCheck (text : Str) : Bool :=
  let lowerText := jsLower text
  if medicalKeywords.any (fun keyword => jsIncludes keyword lowerText) then
    true
  else if questionPhrases.any (fun phrase => jsStartsWith phrase lowerText) then
    true
  else
    false

/-! ## Payload shapes and webhook handler

The nested webhook payload (interfaces `WebhookBody` / `WebhookMessageData`
of webhook.ts).  Two inner objects are collapsed to the single field the
handler reads from them: `extendedText` stands for
`extendedTextMessage.text` and `imageCaption` for `imageMessage.caption`.
-/

/-- The `key` object of a message: `fromMe` and `remoteJid`. -/
structure MsgKey where
  fromMe : Option Bool
  remoteJid : Option Str
deriving DecidableEq

/-- The `message` object: the three text carriers the handler inspects. -/
structure MsgContent where
  conversation : Option Str
  extendedText : Option Str
  imageCaption : Option Str
deriving DecidableEq

/-- The `data.messages` object. -/
structure MessagesData where
  key : Option MsgKey
  remoteJid : Option Str
  pushName : Option Str
  message : Option MsgContent
deriving DecidableEq

/-- The `data` object. -/
structure WebhookData where
  messages : Option MessagesData
deriving DecidableEq

/-- The top-level webhook body. -/
structure WebhookBody where
  event : Str
  data : Option WebhookData
deriving DecidableEq

/-- Text extraction (webhook.ts lines 463-471): plain `conversation`
first, then `extendedTextMessage.text`, then `imageMessage.caption`; each
field is consulted under JavaScript truthiness, so an absent or empty
field falls through to the next. -/
def extractText : Option MsgContent → Option Str
  | none => none
  | some m =>
    match truthyStr m.conversation with
    | some t => some t
    | none =>
      match truthyStr m.extendedText with
      | some t => some t
      | none => truthyStr m.imageCaption

/-- The fixed rejection reply (webhook.ts lines 520-521). -/
def rejectionMessage : Str :=
  strOf "I am a medical bot and can only answer questions related to health and medicine. Please ask a health-related question!"

/-- The generic error notice of the outer catch (webhook.ts lines
627-628). -/
def genericErrorMessage : Str :=
  strOf "A general error occurred in the bot system. The developers have been notified. Please try again shortly."

/-- The maintenance notice sent when the RAG call fails (webhook.ts lines
562-568), a trimmed template literal. -/
def serverDownMessage : Str :=
  jsTrim (strOf "\n*🚧 System Maintenance In Progress 🚧*\n\nI apologize, but my core system is currently undergoing maintenance and cannot process your medical question right now.\n\nWe are working hard to fix it as quickly as possible. Please try asking your question again in a few minutes!\n        ")

/-- The welcome reply for greetings (webhook.ts lines 486-508): a trimmed
template literal interpolating `userName`. -/
def welcomeMessage (userName : Str) : Str :=
  jsTrim (strOf "\n*👋 Hello, " ++ userName ++
    strOf "! I am your AI Medical Assistant.*\n\nI am here to help answer your general health and medical questions. I can provide information on:\n* Symptoms\n* Diseases (e.g., Malaria, TB)\n* General treatment options\n* Health tips\n\n*❗ Important Disclaimer:*\nI am an AI and *not* a real doctor. My answers are for *informational purposes only* and should *never* replace advice from a qualified healthcare professional. For any medical emergency or personal advice, please contact a clinic or doctor immediately.\n\n*How to use me:*\nJust ask your health question!\n_Example: \"What are the early symptoms of malaria?\"_\n\n*What happens if you ask a non-medical question?*\nI will ignore it or politely tell you that I only answer medical questions.\n\nHow can I help you today?\n        ")

/-- The `status` field of the JSON body the handler answers with. -/
inductive BodySt where
  | ignored
  | success
  | error
deriving DecidableEq

/-- Observable outcome of one handler invocation: the HTTP status code,
the body's `status` field, and the outbound send attempts in order
(recipient, message), recorded whether or not the send succeeds. -/
structure HResult where
  httpStatus : Nat
  body : BodySt
  attempts : List (Str × Str)
deriving DecidableEq

/-- A `status: ignored` response (always HTTP 200, no sends). -/
def ignoredResult : HResult :=
  { httpStatus := 200, body := BodySt.ignored, attempts := [] }

/-- The outer catch block (webhook.ts lines 619-643): when `recipientId`
is truthy, a best-effort generic error notice is attempted (its own
failure only logged); the response is `status: error` with HTTP 200. -/
def outerCatch (recipientId : Option Str) (attempts : List (Str × Str)) : HResult :=
  match truthyStr recipientId with
  | some rid =>
    { httpStatus := 200, body := BodySt.error,
      attempts := attempts ++ [(rid, genericErrorMessage)] }
  | none => { httpStatus := 200, body := BodySt.error, attempts := attempts }

/-- An awaited `sendWasenderMessage` followed by a success response: the
first send attempt either succeeds (respond with `okBody`, HTTP 200) or
throws into the outer catch, which attempts the generic notice. -/
def sendThenRespond (rid msg : Str) (okBody : BodySt) (sendOk : Nat → Bool) : HResult :=
  if sendOk 0 then { httpStatus := 200, body := okBody, attempts := [(rid, msg)] }
  else outerCatch (some rid) [(rid, msg)]

/-- The `POST /webhook` handler (webhook.ts lines 414-644).

* `parsed` is the result of `c.req.json()`: `none` models a parse throw
  (caught by the outer catch with `recipientId` still undefined).
* `ragResult` models the fetch to the RAG endpoint: `.error ()` is a
  transport error or non-2xx response (both throw into the inner catch),
  `.ok s` is a 2xx response whose streamed body concatenates to `s`.
* `sendOk n` is the outcome of the n-th `sendWasenderMessage` attempt.

The source guards `event !== "messages.received" || !data || !data.messages`
in one condition; here the container is matched first and the event tag
tested second, which returns the same `ignoredResult` in every such case.
The source's `if (!isMedicalQuestion(q))` rejection branch appears below
as the `else` of `if isMedicalQuestion q`. -/
def handleWebhook (parsed : Option WebhookBody) (ragResult : Except Unit Str)
    (sendOk : Nat → Bool) : HResult :=
  match parsed with
  | none => outerCatch none []
  | some b =>
    match b.data.bind WebhookData.messages with
    | none => ignoredResult
    | some md =>
      if b.event ≠ strOf "messages.received" then ignoredResult
      else
        match truthyStr (jsOr (md.key.bind MsgKey.remoteJid) md.remoteJid) with
        | none => ignoredResult
        | some rid =>
          if md.key.bind MsgKey.fromMe = some true ∨ jsEndsWith (strOf "@g.us") rid = true then
            ignoredResult
          else
            match truthyStr ((extractText md.message).map jsTrim) with
            | none => ignoredResult
            | some finalQuestion =>
              if isSimpleGreeting finalQuestion then
                let userName := (truthyStr md.pushName).getD (strOf "there")
                sendThenRespond rid (welcomeMessage userName) BodySt.success sendOk
              else if isMedicalQuestion finalQuestion then
                match ragResult with
                | Except.error _ =>
                  { httpStatus := 200, body := BodySt.error,
                    attempts := [(rid, serverDownMessage)] }
                | Except.ok answerBody =>
                  let finalAnswer := jsTrim answerBody
                  if finalAnswer.length = 0 then ignoredResult
                  else sendThenRespond rid finalAnswer BodySt.success sendOk
              else
                sendThenRespond rid rejectionMessage BodySt.ignored sendOk

/-! ## Derived predicates and sample payloads -/

/-- The lowercased text contains some fixed medical keyword as a
substring. -/
def containsKeyword (s : Str) : Prop :=
  ∃ k ∈ medicalKeywords, ∃ pre post, jsLower s = pre ++ k ++ post

/-- The lowercased text starts with some fixed question phrase. -/
def startsWithPhrase (s : Str) : Prop :=
  ∃ p ∈ questionPhrases, ∃ rest, jsLower s = p ++ rest

/-- The ignorable payload shapes of the error-handling taxonomy: wrong
event tag, missing message container, no resolvable (truthy) sender id,
sender flagged as self, group-chat sender id, or no non-whitespace text. -/
def ignorableShape (b : WebhookBody) : Prop :=
  b.event ≠ strOf "messages.received" ∨
  b.data.bind WebhookData.messages = none ∨
  ∃ md, b.data.bind WebhookData.messages = some md ∧
    (truthyStr (jsOr (md.key.bind MsgKey.remoteJid) md.remoteJid) = none ∨
     md.key.bind MsgKey.fromMe = some true ∨
     (∃ rid, truthyStr (jsOr (md.key.bind MsgKey.remoteJid) md.remoteJid) = some rid ∧
        jsEndsWith (strOf "@g.us") rid = true) ∨
     truthyStr ((extractText md.message).map jsTrim) = none)

/-- A direct-chat sender key used by the sample payloads. -/
def sampleKey : MsgKey :=
  { fromMe := some false, remoteJid := some (strOf "123@lid") }

/-- A plain-conversation greeting message. -/
def sampleGreetingContent : MsgContent :=
  { conversation := some (strOf "hi"), extendedText := none, imageCaption := none }

/-- The `data.messages` object of the greeting sample. -/
def sampleGreetingMessages : MessagesData :=
  { key := some sampleKey, remoteJid := none, pushName := none,
    message := some sampleGreetingContent }

/-- A full greeting webhook payload. -/
def sampleGreetingBody : WebhookBody :=
  { event := strOf "messages.received",
    data := some { messages := some sampleGreetingMessages } }

/-- A plain-conversation medical message. -/
def sampleMedicalContent : MsgContent :=
  { conversation := some (strOf "I have a fever"), extendedText := none,
    imageCaption := none }

/-- The `data.messages` object of the medical sample. -/
def sampleMedicalMessages : MessagesData :=
  { key := some sampleKey, remoteJid := none, pushName := none,
    message := some sampleMedicalContent }

/-- A full medical webhook payload. -/
def sampleMedicalBody : WebhookBody :=
  { event := strOf "messages.received",
    data := some { messages := some sampleMedicalMessages } }

/-- A payload whose event tag is not the expected marker. -/
def sampleBadEventBody : WebhookBody :=
  { event := strOf "messages.update", data := none }

/-! ## Lemmas about the string model -/

theorem jsCharLower_idem (c : Nat) : jsCharLower (jsCharLower c) = jsCharLower c := by
  simp only [jsCharLower]
  split_ifs <;> omega

theorem jsLower_idem (s : Str) : jsLower (jsLower s) = jsLower s := by
  induction s with
  | nil => rfl
  | cons c t ih =>
    simp only [jsLower, List.map_cons] at ih ⊢
    rw [jsCharLower_idem, ih]

theorem isWsChar_jsCharLower (c : Nat) : isWsChar (jsCharLower c) = isWsChar c := by
  simp only [jsCharLower, isWsChar]
  split_ifs with h
  · simp only [decide_eq_decide]
    omega
  · rfl

theorem isWsChar_comp_jsCharLower : isWsChar ∘ jsCharLower = isWsChar :=
  funext isWsChar_jsCharLower

theorem dropWhile_jsLower (s : Str) :
    List.dropWhile isWsChar (jsLower s) = jsLower (List.dropWhile isWsChar s) := by
  simp only [jsLower, List.dropWhile_map, isWsChar_comp_jsCharLower]

theorem rdropWhile_jsLower (s : Str) :
    List.rdropWhile isWsChar (jsLower s) = jsLower (List.rdropWhile isWsChar s) := by
  simp only [List.rdropWhile, jsLower, ← List.map_reverse, List.dropWhile_map,
    isWsChar_comp_jsCharLower]

theorem jsTrim_jsLower (s : Str) : jsTrim (jsLower s) = jsLower (jsTrim s) := by
  simp only [jsTrim, dropWhile_jsLower, rdropWhile_jsLower]

theorem rdropWhile_cons (p : Nat → Bool) (a : Nat) (t : List Nat) :
    List.rdropWhile p (a :: t) =
      if List.rdropWhile p t = [] then (if p a then [] else [a])
      else a :: List.rdropWhile p t := by
  by_cases h : List.dropWhile p t.reverse = []
  · have h2 : List.rdropWhile p t = [] := by simp [List.rdropWhile, h]
    rw [if_pos h2]
    simp only [List.rdropWhile, List.reverse_cons, List.dropWhile_append, h,
      List.isEmpty_nil, if_true]
    cases hpa : p a <;> simp [List.dropWhile_cons, hpa]
  · have h2 : ¬ List.rdropWhile p t = [] := by simp [List.rdropWhile, h]
    rw [if_neg h2]
    have h3 : (List.dropWhile p t.reverse).isEmpty = false := by
      simp [List.isEmpty_iff, h]
    simp [List.rdropWhile, List.reverse_cons, List.dropWhile_append, h3]

theorem dropWhile_rdropWhile_comm (p : Nat → Bool) (l : List Nat) :
    List.dropWhile p (List.rdropWhile p l) = List.rdropWhile p (List.dropWhile p l) := by
  induction l with
  | nil => simp
  | cons a t ih =>
    by_cases ha : p a = true
    · rw [List.dropWhile_cons_of_pos ha, rdropWhile_cons]
      by_cases ht : List.rdropWhile p t = []
      · rw [if_pos ht, if_pos ha, ← ih, ht]
      · rw [if_neg ht, List.dropWhile_cons_of_pos ha]
        exact ih
    · rw [List.dropWhile_cons_of_neg ha, rdropWhile_cons]
      by_cases ht : List.rdropWhile p t = []
      · rw [if_pos ht, if_neg ha, List.dropWhile_cons_of_neg ha]
      · rw [if_neg ht, List.dropWhile_cons_of_neg ha]

theorem jsTrim_idem (s : Str) : jsTrim (jsTrim s) = jsTrim s := by
  simp only [jsTrim, dropWhile_rdropWhile_comm, List.dropWhile_idempotent,
    List.rdropWhile_idempotent]

theorem jsStartsWith_iff (n h : Str) :
    jsStartsWith n h = true ↔ ∃ rest, h = n ++ rest := by
  induction n generalizing h with
  | nil => simp [jsStartsWith]
  | cons a as ih =>
    cases h with
    | nil =>
      simp [jsStartsWith]
    | cons b bs =>
      simp only [jsStartsWith, Bool.and_eq_true, beq_iff_eq, ih, List.cons_append,
        List.cons.injEq]
      constructor
      · rintro ⟨rfl, rest, rfl⟩
        exact ⟨rest, rfl, rfl⟩
      · rintro ⟨rest, rfl, rfl⟩
        exact ⟨rfl, rest, rfl⟩

theorem jsIncludes_iff (n h : Str) :
    jsIncludes n h = true ↔ ∃ pre post, h = pre ++ n ++ post := by
  induction h with
  | nil =>
    simp only [jsIncludes, jsStartsWith_iff]
    constructor
    · rintro ⟨rest, hr⟩
      exact ⟨[], rest, by simpa using hr⟩
    · rintro ⟨pre, post, hp⟩
      obtain ⟨h1, h2⟩ := List.append_eq_nil.mp hp.symm
      obtain ⟨h3, h4⟩ := List.append_eq_nil.mp h1
      exact ⟨[], by simp [h4]⟩
  | cons c t ih =>
    simp only [jsIncludes, Bool.or_eq_true, jsStartsWith_iff, ih]
    constructor
    · rintro (⟨rest, hr⟩ | ⟨pre, post, hp⟩)
      · exact ⟨[], rest, by simpa using hr⟩
      · exact ⟨c :: pre, post, by simp [hp]⟩
    · rintro ⟨pre, post, hp⟩
      cases pre with
      | nil =>
        exact Or.inl ⟨post, by simpa using hp⟩
      | cons d ds =>
        simp only [List.cons_append, List.cons.injEq] at hp
        exact Or.inr ⟨ds, post, hp.2⟩

/-! ## Classifier characterizations -/

theorem isMedicalQuestion_eq (s : Str) :
    isMedicalQuestion s =
      (medicalKeywords.any (fun keyword => jsIncludes keyword (jsLower s)) ||
       questionPhrases.any (fun phrase => jsStartsWith phrase (jsLower s))) := by
  simp only [isMedicalQuestion]
  cases h1 : medicalKeywords.any (fun keyword => jsIncludes keyword (jsLower s)) <;>
    cases h2 : questionPhrases.any (fun phrase => jsStartsWith phrase (jsLower s)) <;>
      simp [h1, h2]

theorem isMedicalQuestion_iff (s : Str) :
    isMedicalQuestion s = true ↔ containsKeyword s ∨ startsWithPhrase s := by
  rw [isMedicalQuestion_eq]
  simp only [Bool.or_eq_true, List.any_eq_true, containsKeyword, startsWithPhrase,
    jsIncludes_iff, jsStartsWith_iff, List.append_assoc]

theorem isSimpleGreeting_iff (s : Str) :
    isSimpleGreeting s = true ↔ jsTrim (jsLower s) ∈ greetings := by
  simp [isSimpleGreeting, List.any_eq_true]

/-! ## Claim theorems: classifiers -/

/-- C3: the medical classifier returns true iff the lowercased text
contains a fixed medical keyword as a substring or starts with a fixed
question-phrase prefix; when neither holds and the text is shorter than
the minimum length threshold it is classified non-medical; and the three
example inputs classify as the specification states. -/
theorem medical_classifier_spec :
    (∀ s : Str, isMedicalQuestion s = true ↔ containsKeyword s ∨ startsWithPhrase s) ∧
    (∀ s : Str, ¬ containsKeyword s → ¬ startsWithPhrase s → s.length < 5 →
      isMedicalQuestion s = false) ∧
    isMedicalQuestion (strOf "What are the symptoms of malaria?") = true ∧
    isMedicalQuestion (strOf "ok thanks") = false ∧
    isMedicalQuestion (strOf "yes") = false := by
  refine ⟨isMedicalQuestion_iff, fun s hk hp _ => ?_, by decide, by decide, by decide⟩
  cases h : isMedicalQuestion s
  · rfl
  · exact absurd ((isMedicalQuestion_iff s).mp h) (by tauto)

/-- Witness for C3 at concrete inputs: "ok" matches no keyword and no
phrase and is shorter than the threshold, hence non-medical. -/
theorem medical_classifier_spec_witness :
    isMedicalQuestion (strOf "ok") = false := by
  refine medical_classifier_spec.2.1 (strOf "ok") ?_ ?_ (by decide)
  · intro h
    have := (isMedicalQuestion_iff (strOf "ok")).mpr (Or.inl h)
    exact absurd this (by decide)
  · intro h
    have := (isMedicalQuestion_iff (strOf "ok")).mpr (Or.inr h)
    exact absurd this (by decide)

/-- C4: the greeting classifier returns true iff the trimmed, lowercased
text equals one member of the fixed greeting list exactly, and the five
example inputs classify as the specification states (a message merely
containing a greeting as a prefix or substring is not a greeting). -/
theorem greeting_classifier_spec :
    (∀ s : Str, isSimpleGreeting s = true ↔ jsTrim (jsLower s) ∈ greetings) ∧
    isSimpleGreeting (strOf "hi") = true ∧
    isSimpleGreeting (strOf "Hello") = true ∧
    isSimpleGreeting (strOf "  hey  ") = true ∧
    isSimpleGreeting (strOf "hi there") = false ∧
    isSimpleGreeting (strOf "hiya") = false :=
  ⟨isSimpleGreeting_iff, by decide, by decide, by decide, by decide, by decide⟩

/-- C9: both classifiers are case-insensitive (lowercasing the input does
not change the result), and the greeting classifier is additionally
invariant under trimming its input. -/
theorem classifier_invariance :
    ∀ s : Str,
      isSimpleGreeting (jsLower s) = isSimpleGreeting s ∧
      isMedicalQuestion (jsLower s) = isMedicalQuestion s ∧
      isSimpleGreeting (jsTrim s) = isSimpleGreeting s := by
  intro s
  refine ⟨?_, ?_, ?_⟩
  · simp only [isSimpleGreeting, jsLower_idem]
  · simp only [isMedicalQuestion, jsLower_idem]
  · simp only [isSimpleGreeting, jsTrim_jsLower, jsTrim_idem]

/-- C10: the short-text branch of the medical classifier is dead code:
the classifier agrees with the simplified predicate that only performs
the keyword-substring and question-phrase tests, on every input. -/
theorem medical_length_check_dead :
    ∀ s : Str, isMedicalQuestion s = isMedicalQuestionNoLengthCheck s := by
  intro s
  simp only [isMedicalQuestion, isMedicalQuestionNoLengthCheck]
  cases h1 : medicalKeywords.any (fun keyword => jsIncludes keyword (jsLower s)) <;>
    cases h2 : questionPhrases.any (fun phrase => jsStartsWith phrase (jsLower s)) <;>
      simp [h1, h2]


/-! ## Claim theorems: webhook handler -/

/-- C1: every invocation of the webhook handler answers with HTTP status
200, whichever branch is taken and whatever the RAG call and the outbound
sends do; the outcome is reported only in the body's status field. -/
theorem webhook_always_http_200 :
    ∀ (parsed : Option WebhookBody) (ragResult : Except Unit Str) (sendOk : Nat → Bool),
      (handleWebhook parsed ragResult sendOk).httpStatus = 200 := by
  intro parsed ragResult sendOk
  unfold handleWebhook sendThenRespond outerCatch ignoredResult
  repeat first
  | rfl
  | split
  | dsimp only

/-- Shared helper: with the message container present but no resolvable
non-whitespace text, the handler result is the ignored response. -/
theorem handleWebhook_ignored_of_no_text
    (b : WebhookBody) (md : MessagesData) (ragResult : Except Unit Str)
    (sendOk : Nat → Bool)
    (hmd : b.data.bind WebhookData.messages = some md)
    (htext : truthyStr ((extractText md.message).map jsTrim) = none) :
    handleWebhook (some b) ragResult sendOk = ignoredResult := by
  by_cases hev : b.event = strOf "messages.received"
  · cases hjid : truthyStr (jsOr (md.key.bind MsgKey.remoteJid) md.remoteJid) with
    | none => simp [handleWebhook, hmd, hev, hjid]
    | some rid =>
      by_cases hsg : md.key.bind MsgKey.fromMe = some true ∨
          jsEndsWith (strOf "@g.us") rid = true
      · simp [handleWebhook, hmd, hev, hjid, hsg]
      · simp [handleWebhook, hmd, hev, hjid, hsg, htext]
  · simp [handleWebhook, hmd, hev]

/-- C5: every payload in one of the ignorable shapes (wrong event tag,
missing message container, no resolvable sender id, self-message,
group-chat sender, no non-whitespace text) yields a body with status
"ignored" and zero outbound send attempts. -/
theorem ignorable_inputs_ignored :
    ∀ (b : WebhookBody) (ragResult : Except Unit Str) (sendOk : Nat → Bool),
      ignorableShape b →
      (handleWebhook (some b) ragResult sendOk).body = BodySt.ignored ∧
      (handleWebhook (some b) ragResult sendOk).attempts = [] := by
  intro b ragResult sendOk h
  suffices hs : handleWebhook (some b) ragResult sendOk = ignoredResult by
    rw [hs]
    exact ⟨rfl, rfl⟩
  rcases h with hev | hmd | ⟨md, hmd, hrest⟩
  · cases hmd2 : b.data.bind WebhookData.messages with
    | none => simp [handleWebhook, hmd2]
    | some md => simp [handleWebhook, hmd2, hev]
  · simp [handleWebhook, hmd]
  · by_cases hev : b.event = strOf "messages.received"
    · rcases hrest with hjid | hself | ⟨rid, hrid, hgrp⟩ | htext
      · simp [handleWebhook, hmd, hev, hjid]
      · cases hjid : truthyStr (jsOr (md.key.bind MsgKey.remoteJid) md.remoteJid) with
        | none => simp [handleWebhook, hmd, hev, hjid]
        | some rid => simp [handleWebhook, hmd, hev, hjid, hself]
      · simp [handleWebhook, hmd, hev, hrid, hgrp]
      · exact handleWebhook_ignored_of_no_text b md ragResult sendOk hmd htext
    · simp [handleWebhook, hmd, hev]

/-- Witness for C5: a payload whose event tag is not the expected marker
is answered with status "ignored" and no send attempts. -/
theorem ignorable_inputs_ignored_witness :
    (handleWebhook (some sampleBadEventBody) (Except.ok []) (fun _ => true)).body =
      BodySt.ignored ∧
    (handleWebhook (some sampleBadEventBody) (Except.ok []) (fun _ => true)).attempts = [] :=
  ignorable_inputs_ignored sampleBadEventBody (Except.ok []) (fun _ => true)
    (Or.inl (by decide))

/-- C6: on a filtered-in medical message, failure of the RAG call leads to
exactly one outbound send attempt (the fixed maintenance notice), a body
with status "error" and HTTP 200 — for every outcome of the send attempts,
so a failing secondary send never propagates past the handler. -/
theorem rag_failure_maintenance_notice :
    ∀ (b : WebhookBody) (md : MessagesData) (rid fq : Str) (sendOk : Nat → Bool),
      b.data.bind WebhookData.messages = some md →
      b.event = strOf "messages.received" →
      truthyStr (jsOr (md.key.bind MsgKey.remoteJid) md.remoteJid) = some rid →
      ¬ (md.key.bind MsgKey.fromMe = some true ∨ jsEndsWith (strOf "@g.us") rid = true) →
      truthyStr ((extractText md.message).map jsTrim) = some fq →
      isSimpleGreeting fq = false →
      isMedicalQuestion fq = true →
      handleWebhook (some b) (Except.error ()) sendOk =
        { httpStatus := 200, body := BodySt.error,
          attempts := [(rid, serverDownMessage)] } := by
  intro b md rid fq sendOk hmd hev hrid hsg hfq hgreet hmed
  simp [handleWebhook, hmd, hev, hrid, hsg, hfq, hgreet, hmed]

/-- Witness for C6: a concrete medical payload with a failing RAG call and
failing sends still produces the single maintenance-notice attempt and the
error body with HTTP 200. -/
theorem rag_failure_maintenance_notice_witness :
    handleWebhook (some sampleMedicalBody) (Except.error ()) (fun _ => false) =
      { httpStatus := 200, body := BodySt.error,
        attempts := [(strOf "123@lid", serverDownMessage)] } :=
  rag_failure_maintenance_notice sampleMedicalBody sampleMedicalMessages
    (strOf "123@lid") (strOf "I have a fever") (fun _ => false)
    (by decide) (by decide) (by decide) (by decide) (by decide) (by decide) (by decide)

/-- C8: on a filtered-in medical message, a successful RAG call whose
collected answer trims to the empty string leads to no outbound send and a
benign "ignored" outcome rather than an error. -/
theorem empty_answer_benign :
    ∀ (b : WebhookBody) (md : MessagesData) (rid fq ans : Str) (sendOk : Nat → Bool),
      b.data.bind WebhookData.messages = some md →
      b.event = strOf "messages.received" →
      truthyStr (jsOr (md.key.bind MsgKey.remoteJid) md.remoteJid) = some rid →
      ¬ (md.key.bind MsgKey.fromMe = some true ∨ jsEndsWith (strOf "@g.us") rid = true) →
      truthyStr ((extractText md.message).map jsTrim) = some fq →
      isSimpleGreeting fq = false →
      isMedicalQuestion fq = true →
      (jsTrim ans).length = 0 →
      (handleWebhook (some b) (Except.ok ans) sendOk).body = BodySt.ignored ∧
      (handleWebhook (some b) (Except.ok ans) sendOk).attempts = [] := by
  intro b md rid fq ans sendOk hmd hev hrid hsg hfq hgreet hmed hans
  simp [handleWebhook, hmd, hev, hrid, hsg, hfq, hgreet, hmed, hans, ignoredResult]

/-- Witness for C8: a concrete medical payload whose RAG answer is all
whitespace yields the ignored body and zero send attempts. -/
theorem empty_answer_benign_witness :
    (handleWebhook (some sampleMedicalBody) (Except.ok (strOf "   ")) (fun _ => true)).body =
      BodySt.ignored ∧
    (handleWebhook (some sampleMedicalBody) (Except.ok (strOf "   ")) (fun _ => true)).attempts =
      [] :=
  empty_answer_benign sampleMedicalBody sampleMedicalMessages
    (strOf "123@lid") (strOf "I have a fever") (strOf "   ") (fun _ => true)
    (by decide) (by decide) (by decide) (by decide) (by decide) (by decide) (by decide)
    (by decide)

/-- C7: message text is resolved in priority order — plain conversation,
extended-text body, image caption — the first truthy (non-empty) field
winning; when no field is truthy, or when the resolved text trims to the
empty string, the handler answers "ignored" with no sends, before any
classification. -/
theorem text_resolution_spec :
    (extractText none = none) ∧
    (∀ (m : MsgContent) (t : Str), truthyStr m.conversation = some t →
       extractText (some m) = some t) ∧
    (∀ (m : MsgContent) (t : Str), truthyStr m.conversation = none →
       truthyStr m.extendedText = some t → extractText (some m) = some t) ∧
    (∀ (m : MsgContent) (t : Str), truthyStr m.conversation = none →
       truthyStr m.extendedText = none → truthyStr m.imageCaption = some t →
       extractText (some m) = some t) ∧
    (∀ m : MsgContent, truthyStr m.conversation = none →
       truthyStr m.extendedText = none → truthyStr m.imageCaption = none →
       extractText (some m) = none) ∧
    (∀ (b : WebhookBody) (md : MessagesData) (ragResult : Except Unit Str)
       (sendOk : Nat → Bool),
       b.data.bind WebhookData.messages = some md →
       truthyStr ((extractText md.message).map jsTrim) = none →
       (handleWebhook (some b) ragResult sendOk).body = BodySt.ignored ∧
       (handleWebhook (some b) ragResult sendOk).attempts = []) := by
  refine ⟨rfl, ?_, ?_, ?_, ?_, ?_⟩
  · intro m t h1
    simp [extractText, h1]
  · intro m t h1 h2
    simp [extractText, h1, h2]
  · intro m t h1 h2 h3
    simp [extractText, h1, h2, h3]
  · intro m h1 h2 h3
    simp [extractText, h1, h2, h3]
  · intro b md ragResult sendOk hmd htext
    rw [handleWebhook_ignored_of_no_text b md ragResult sendOk hmd htext]
    exact ⟨rfl, rfl⟩

/-- Witness for C7: the plain conversation field of the greeting sample
resolves as the message text. -/
theorem text_resolution_spec_witness :
    extractText (some sampleGreetingContent) = some (strOf "hi") :=
  text_resolution_spec.2.1 sampleGreetingContent (strOf "hi") (by decide)

/-- Counterexample to C2 as stated: on a greeting payload whose welcome
send fails, the outer catch attempts a second send (the generic error
notice), so a single inbound event leads to two send attempts. -/
theorem single_send_counterexample :
    ¬ ((handleWebhook (some sampleGreetingBody) (Except.ok []) (fun _ => false)).attempts.length ≤ 1) := by
  decide

/-- C2 (amended): at most two outbound sends are attempted per inbound
event, and when the first send attempt succeeds at most one is attempted;
the second attempt only arises as the outer catch's error notice after a
failed primary send. -/
theorem webhook_at_most_two_sends :
    ∀ (parsed : Option WebhookBody) (ragResult : Except Unit Str) (sendOk : Nat → Bool),
      (handleWebhook parsed ragResult sendOk).attempts.length ≤ 2 ∧
      (sendOk 0 = true →
        (handleWebhook parsed ragResult sendOk).attempts.length ≤ 1) := by
  intro parsed ragResult sendOk
  constructor
  · unfold handleWebhook sendThenRespond outerCatch ignoredResult
    repeat (any_goals (first | split | dsimp only))
    all_goals simp
  · intro h0
    unfold handleWebhook sendThenRespond outerCatch ignoredResult
    simp only [h0, if_true]
    repeat (any_goals (first | split | dsimp only))
    all_goals simp

/-- Witness for C2 (amended) at a concrete greeting payload with a
succeeding send: both bounds hold, the second with its hypothesis
discharged. -/
theorem webhook_at_most_two_sends_witness :
    (handleWebhook (some sampleGreetingBody) (Except.ok []) (fun _ => true)).attempts.length ≤ 2 ∧
    (handleWebhook (some sampleGreetingBody) (Except.ok []) (fun _ => true)).attempts.length ≤ 1 :=
  ⟨(webhook_at_most_two_sends (some sampleGreetingBody) (Except.ok []) (fun _ => true)).1,
   (webhook_at_most_two_sends (some sampleGreetingBody) (Except.ok []) (fun _ => true)).2 rfl⟩

end HealthChatbot
